import Mathlib

/-!
A shallow embedding of the goridium RockBlock driver (package goridium,
the single Go source file of this repository) together with proofs about
its protocol logic.

Modeling conventions:
* The serial transport is modeled as a scripted, error-free channel: a list
  of input lines the scanner will yield (`input`) and a log of the strings
  written by `Send` (`writes`).  `Port.Write([]byte(s))` writes the UTF-8
  bytes of `s`; byte-level statements apply `utf8Bytes` to the write log.
* Every fallible Go method `func (rb *RockBlock) F(...) (T, error)` becomes
  a state-passing function `RockBlock → Except Err T × RockBlock`.
* Go byte-indexed slicing (`s[i:]`, `s[i]`) is modeled character-based;
  all protocol replies concerned are ASCII, where the two coincide.
  A Go slice whose bound exceeds the length panics; panics are modeled
  explicitly (`ParseResult.panic`, `Err.goPanic`).
* `time.Sleep` calls are dropped (no real time in the model); `log.Printf`
  tracing is dropped.
* The unbounded recursion of `AttemptSession` is modeled with an explicit
  fuel parameter (`attemptSessionGo`); the top-level `AttemptSession` uses
  fuel `input.length + 1`, which suffices because every recursive drain
  call strictly consumes scripted input.
-/

deriving instance DecidableEq for Except

set_option maxRecDepth 100000
set_option maxHeartbeats 2000000

namespace Goridium

/-- Whitespace test matching Go `unicode.IsSpace` on the Latin-1 range
(tab, newline, vertical tab, form feed, carriage return, space, NEL, NBSP). -/
def isSpaceGo (c : Char) : Bool :=
  c = ' ' || c = '\t' || c = '\n' || c = '\r' ||
  c.toNat = 11 || c.toNat = 12 || c.toNat = 133 || c.toNat = 160

/-- Go `strings.TrimSpace`: drop leading and trailing whitespace. -/
def goTrim (s : String) : String :=
  String.mk (((s.data.dropWhile isSpaceGo).reverse.dropWhile isSpaceGo).reverse)

/-- Character-based model of the Go byte-slice `s[n:]`. -/
def strDrop (n : Nat) (s : String) : String :=
  String.mk (s.data.drop n)

/-- Drop the last `n` characters of `s` (used only to state claims). -/
def strDropRight (n : Nat) (s : String) : String :=
  String.mk (s.data.take (s.data.length - n))

/-- Character-based model of the Go one-byte string `string(s[i])`. -/
def strCharAt (s : String) (i : Nat) : String :=
  String.mk ((s.data.drop i).take 1)

/-- Substring containment, the test `strings.Index(s, pat) >= 0`. -/
def strContainsL (pat : List Char) : List Char → Bool
  | [] => pat.isEmpty
  | c :: rest => pat.isPrefixOf (c :: rest) || strContainsL pat rest

/-- `strings.Index(s, pat) >= 0` as a Bool. -/
def strContains (s pat : String) : Bool :=
  strContainsL pat.data s.data

/-- Go `strings.Split(s, ", ")` on character lists: greedy left-to-right
scan, cutting at each occurrence of the two-character separator. -/
def splitCS : List Char → List (List Char)
  | [] => [[]]
  | [c] => [[c]]
  | c1 :: c2 :: rest =>
    if c1 = ',' ∧ c2 = ' ' then [] :: splitCS rest
    else
      match splitCS (c2 :: rest) with
      | [] => [[c1]]
      | x :: xs => (c1 :: x) :: xs

/-- Go `strings.Replace(s, pat, "", 1)`: remove the leftmost occurrence of
`pat` (if any). -/
def removeFirstL (pat : List Char) : List Char → List Char
  | [] => []
  | c :: rest =>
    if pat.isPrefixOf (c :: rest) then (c :: rest).drop pat.length
    else c :: removeFirstL pat rest

/-- String version of `removeFirstL`. -/
def removeFirst (pat s : String) : String :=
  String.mk (removeFirstL pat.data s.data)

/-- Value of one digit character for bases up to 16, as accepted by
Go `strconv.ParseInt` (digits, then lower-case letters, then upper-case). -/
def digitVal (c : Char) : Option Nat :=
  if '0' ≤ c ∧ c ≤ '9' then some (c.toNat - 48)
  else if 'a' ≤ c ∧ c ≤ 'f' then some (c.toNat - 87)
  else if 'A' ≤ c ∧ c ≤ 'F' then some (c.toNat - 55)
  else none

/-- Accumulate an unsigned digit string in the given base; `none` on an
empty string or any character that is not a digit of the base. -/
def digitsVal (base : Nat) (l : List Char) : Option Nat :=
  if l.isEmpty then none
  else
    l.foldl
      (fun acc c =>
        acc.bind fun n =>
          (digitVal c).bind fun v =>
            if v < base then some (n * base + v) else none)
      (some 0)

/-- Go `strconv.ParseInt(s, base, 32)`: optional sign, digits of the base,
and an `int32` range check (out-of-range is an error). -/
def goParseInt (base : Nat) (s : String) : Option Int :=
  let signAndDigits : Bool × List Char :=
    match s.data with
    | '+' :: rest => (false, rest)
    | '-' :: rest => (true, rest)
    | l => (false, l)
  match digitsVal base signAndDigits.2 with
  | none => none
  | some n =>
    let v : Int := if signAndDigits.1 then -(n : Int) else (n : Int)
    if -(2 ^ 31) ≤ v ∧ v ≤ 2 ^ 31 - 1 then some v else none

/-- UTF-8 encoding of one character (Go strings hold UTF-8 bytes). -/
def utf8EncodeChar (c : Char) : List Nat :=
  let n := c.toNat
  if n < 128 then [n]
  else if n < 2048 then
    [192 + n / 64, 128 + n % 64]
  else if n < 65536 then
    [224 + n / 4096, 128 + (n / 64) % 64, 128 + n % 64]
  else
    [240 + n / 262144, 128 + (n / 4096) % 64, 128 + (n / 64) % 64, 128 + n % 64]

/-- The UTF-8 bytes of a string: what `Port.Write([]byte(s))` puts on the
wire. -/
def utf8Bytes (s : String) : List Nat :=
  s.data.foldr (fun c acc => utf8EncodeChar c ++ acc) []

/-- Go `len(s)`: the byte length of the string. -/
def goLen (s : String) : Nat :=
  (utf8Bytes s).length

/-- Go `fmt.Sprintf("%c", n)`: the one-character string of code point `n`,
or U+FFFD when `n` is not a valid code point. -/
def charStr (n : Nat) : String :=
  if n.isValidChar then String.mk [Char.ofNat n] else String.mk [Char.ofNat 65533]

/-- Sum of the code points of the string: the Go loop
`for _, c := range message { checksum += int(c) }` iterates runes. -/
def runeSum (s : String) : Nat :=
  s.data.foldl (fun acc c => acc + c.toNat) 0

/-- Occurrences of the string `s` in a write log. -/
def countW (s : String) : List String → Nat
  | [] => 0
  | x :: xs => (if x = s then 1 else 0) + countW s xs

/-- The modeled state of a `RockBlock` handle: the scripted lines the
line scanner will yield, and the log of strings written to the port. -/
structure RockBlock where
  input : List String
  writes : List String
deriving Repr, DecidableEq

/-- The error values the Go code can return (each `fmt.Errorf` call site
and error kind gets one constructor), plus the modeling artifacts
`goPanic` (a Go runtime panic) and `outOfFuel` (recursion fuel exhausted,
never reached on the scripted inputs used in this file). -/
inductive Err where
  | unexpectedReply (got expected : String)
  | unexpectedReplyMsg (reply : String)
  | messageTooLong (n : Nat)
  | parseIntErr (field : String)
  | noNetworkTime (tail : String)
  | expectedOk (e : Err)
  | unableToEstablishConnection
  | unableToFindSignal
  | unableToEstablishSession
  | goPanic
  | outOfFuel
deriving Repr, DecidableEq

/-- A fallible stateful computation on the RockBlock handle. -/
abbrev M (α : Type) := RockBlock → Except Err α × RockBlock

/-- The parsed `+SBDIX:` status line (six int64 fields). -/
structure SbdixReply where
  MoStatus : Int
  Msn : Int
  MtStatus : Int
  MtMsn : Int
  MtLength : Int
  MtQueued : Int
deriving Repr, DecidableEq

/-- Outcome of `ParseSbdixReply`: a parsed reply, a returned error, or a
Go runtime panic (out-of-range slice or index). -/
inductive ParseResult where
  | ok (sr : SbdixReply)
  | err (e : Err)
  | panic
deriving Repr, DecidableEq

/-- The first non-blank trimmed line of the script, with the rest. -/
def nextLine : List String → Option (String × List String)
  | [] => none
  | l :: rest =>
    if goTrim l = "" then nextLine rest else some (goTrim l, rest)

/-- `func (rb *RockBlock) ReadLine() (r string, err error)`: scan lines,
skip blanks, return the first trimmed non-empty line; at end of script
return the empty string with no error (the Go scanner loop ends and the
named results are zero values). -/
def ReadLine : M String := fun rb =>
  match nextLine rb.input with
  | some (line, rest) => (Except.ok line, { rb with input := rest })
  | none => (Except.ok "", { rb with input := [] })

/-- `func (rb *RockBlock) Send(command string) (err error)`: write the raw
bytes of the string to the port (logged; the scripted port never fails). -/
def Send (command : String) : M Unit := fun rb =>
  (Except.ok (), { rb with writes := rb.writes ++ [command] })

/-- `func (rb *RockBlock) Expect(expected string) (err error)`. -/
def Expect (expected : String) : M Unit := fun rb =>
  match ReadLine rb with
  | (Except.error e, rb1) => (Except.error e, rb1)
  | (Except.ok r, rb1) =>
    if r = expected then (Except.ok (), rb1)
    else (Except.error (Err.unexpectedReply r expected), rb1)

/-- `func (rb *RockBlock) SendAndReadReply(command string)`: send the
command with a trailing carriage return, consume the echo, read the reply. -/
def SendAndReadReply (command : String) : M String := fun rb =>
  match Send (command ++ "\r") rb with
  | (Except.error e, rb1) => (Except.error e, rb1)
  | (Except.ok _, rb1) =>
    match Expect command rb1 with
    | (Except.error e, rb2) => (Except.error e, rb2)
    | (Except.ok _, rb2) => ReadLine rb2

/-- `func (rb *RockBlock) GetSignalStrength() (s int64, err error)`:
send `AT+CSQ`, require a 6-character reply containing `+CSQ`, expect `OK`,
parse the last character as a decimal digit. -/
def GetSignalStrength : M Int := fun rb =>
  match SendAndReadReply "AT+CSQ" rb with
  | (Except.error e, rb1) => (Except.error e, rb1)
  | (Except.ok reply, rb1) =>
    if strContains reply "+CSQ" = false ∨ reply.length ≠ 6 then
      (Except.error (Err.unexpectedReplyMsg reply), rb1)
    else
      match Expect "OK" rb1 with
      | (Except.error e, rb2) => (Except.error e, rb2)
      | (Except.ok _, rb2) =>
        match goParseInt 10 (strCharAt reply 5) with
        | some s => (Except.ok s, rb2)
        | none => (Except.error (Err.parseIntErr (strCharAt reply 5)), rb2)

/-- `IridiumEpoch = 1399818235000` (milliseconds; May 11, 2014, 14:23:55). -/
def IridiumEpoch : Int := 1399818235000

/-- `func (rb *RockBlock) GetNetworkTime() (time int64, err error)`:
send `AT-MSSTM`, expect `OK`, require the `-MSSTM:` marker, parse
`reply[8:]` as hex, and return `(IridiumEpoch + time*90) / 1000` using
Go truncating integer division.  The Go slice `reply[8:]` panics when the
reply is shorter than 8 bytes. -/
def GetNetworkTime : M Int := fun rb =>
  match SendAndReadReply "AT-MSSTM" rb with
  | (Except.error e, rb1) => (Except.error e, rb1)
  | (Except.ok reply, rb1) =>
    match Expect "OK" rb1 with
    | (Except.error e, rb2) => (Except.error e, rb2)
    | (Except.ok _, rb2) =>
      if strContains reply "-MSSTM:" = false then
        (Except.error (Err.unexpectedReplyMsg reply), rb2)
      else if reply.length < 8 then
        (Except.error Err.goPanic, rb2)
      else
        match goParseInt 16 (strDrop 8 reply) with
        | some t => (Except.ok (Int.tdiv (IridiumEpoch + t * 90) 1000), rb2)
        | none => (Except.error (Err.noNetworkTime (strDrop 8 reply)), rb2)

/-- `func (rb *RockBlock) IsNetworkTimeValid() (err error)`: like
`GetNetworkTime` but only checks the reply shape: marker present and
total length exactly 16. -/
def IsNetworkTimeValid : M Unit := fun rb =>
  match SendAndReadReply "AT-MSSTM" rb with
  | (Except.error e, rb1) => (Except.error e, rb1)
  | (Except.ok reply, rb1) =>
    match Expect "OK" rb1 with
    | (Except.error e, rb2) => (Except.error e, rb2)
    | (Except.ok _, rb2) =>
      if strContains reply "-MSSTM:" = false ∨ reply.length ≠ 16 then
        (Except.error (Err.unexpectedReplyMsg reply), rb2)
      else (Except.ok (), rb2)

/-- `func (rb *RockBlock) ProcessMtMessage(mtMsn int64) (message string, err error)`:
send `AT+SBDRB`, read one raw line, strip a leading echo of the command,
trim; if more than 4 bytes remain take `message[2 : len-2]` (the frame
body between the 2-byte length header and 2-byte checksum trailer, with
neither validated), otherwise the empty message; finally expect `OK`
(its failure wrapped as `Expected OK: ...`). -/
def ProcessMtMessage (mtMsn : Int) : M String := fun rb =>
  match Send ("AT+SBDRB" ++ "\r") rb with
  | (Except.error e, rb1) => (Except.error e, rb1)
  | (Except.ok _, rb1) =>
    match ReadLine rb1 with
    | (Except.error e, rb2) => (Except.error e, rb2)
    | (Except.ok line, rb2) =>
      let stripped := goTrim (removeFirst ("AT+SBDRB" ++ "\r") line)
      let message :=
        if stripped.length > 4 then
          String.mk ((stripped.data.drop 2).take (stripped.data.length - 4))
        else ""
      match Expect "OK" rb2 with
      | (Except.error e, rb3) => (Except.error (Err.expectedOk e), rb3)
      | (Except.ok _, rb3) => (Except.ok message, rb3)

/-- `func (rb *RockBlock) QueueMessage(message string) (err error)`:
reject payloads longer than 340 bytes before any I/O; otherwise send
`AT+SBDWB=<len>`, expect the echo and `READY`, write the payload, then
write `fmt.Sprintf("%c", checksum>>8)` and `fmt.Sprintf("%c", checksum&0xff)`
where `checksum` is the sum of the payload's runes (the results of these
three `Send` calls are discarded in the Go code), and expect `0` then `OK`. -/
def QueueMessage (message : String) : M Unit := fun rb =>
  if goLen message > 340 then
    (Except.error (Err.messageTooLong (goLen message)), rb)
  else
    let command := "AT+SBDWB=" ++ toString (goLen message)
    match Send (command ++ "\r") rb with
    | (Except.error e, rb1) => (Except.error e, rb1)
    | (Except.ok _, rb1) =>
      match Expect command rb1 with
      | (Except.error e, rb2) => (Except.error e, rb2)
      | (Except.ok _, rb2) =>
        match Expect "READY" rb2 with
        | (Except.error e, rb3) => (Except.error e, rb3)
        | (Except.ok _, rb3) =>
          let checksum := runeSum message
          let rb4 := (Send message rb3).2
          let rb5 := (Send (charStr (checksum >>> 8)) rb4).2
          let rb6 := (Send (charStr (checksum &&& 255)) rb5).2
          match Expect "0" rb6 with
          | (Except.error e, rb7) => (Except.error e, rb7)
          | (Except.ok _, rb7) => Expect "OK" rb7

/-- `func (rb *RockBlock) ClearMoBuffer() (err error)`: `AT+SBDD0`,
discard the reply line, expect `OK`. -/
def ClearMoBuffer : M Unit := fun rb =>
  match SendAndReadReply "AT+SBDD0" rb with
  | (Except.error e, rb1) => (Except.error e, rb1)
  | (Except.ok _, rb1) => Expect "OK" rb1

/-- Parse each field with `strconv.ParseInt(field, 10, 32)`, stopping at
the first failure (returning the offending field). -/
def parseFields : List String → Except String (List Int)
  | [] => Except.ok []
  | f :: fs =>
    match goParseInt 10 f with
    | none => Except.error f
    | some i =>
      match parseFields fs with
      | Except.error s => Except.error s
      | Except.ok is => Except.ok (i :: is)

/-- `func ParseSbdixReply(reply string) (sr *SbdixReply, err error)`:
split `strings.TrimSpace(reply[7:])` on `", "`, parse every field as a
base-10 int32, then build the struct from `integers[0] .. integers[5]`.
The Go code panics when `reply` is shorter than 7 bytes (the slice) or
when fewer than 6 integers were collected (the indexing); when more than
6 fields parse, the extras are silently ignored. -/
def ParseSbdixReply (reply : String) : ParseResult :=
  if reply.length < 7 then ParseResult.panic
  else
    let fields := (splitCS (goTrim (strDrop 7 reply)).data).map String.mk
    match parseFields fields with
    | Except.error f => ParseResult.err (Err.parseIntErr f)
    | Except.ok integers =>
      if integers.length < 6 then ParseResult.panic
      else
        ParseResult.ok
          { MoStatus := integers.getD 0 0
            Msn := integers.getD 1 0
            MtStatus := integers.getD 2 0
            MtMsn := integers.getD 3 0
            MtLength := integers.getD 4 0
            MtQueued := integers.getD 5 0 }

/-- Phase A of `AttemptConnection`: the `timeAttempts` loop.  The fuel is
the current value of `timeAttempts`; the loop returns the error when it
reaches 0, otherwise probes `IsNetworkTimeValid` and stops on its first
success (the 1-second sleeps are dropped from the model). -/
def attemptConnectionA : Nat → M Unit
  | 0 => fun rb => (Except.error Err.unableToEstablishConnection, rb)
  | Nat.succ k => fun rb =>
    match IsNetworkTimeValid rb with
    | (Except.ok _, rb1) => (Except.ok (), rb1)
    | (Except.error _, rb1) => attemptConnectionA k rb1

/-- Phase B of `AttemptConnection`: the `signalAttempts` loop.  Note the
Go loop probes `GetSignalStrength` before testing `signalAttempts == 0`,
so a final probe happens even with no attempts left (the 10-second sleeps
are dropped from the model). -/
def attemptConnectionB : Nat → M Unit
  | 0 => fun rb =>
    match GetSignalStrength rb with
    | (Except.error e, rb1) => (Except.error e, rb1)
    | (Except.ok _, rb1) => (Except.error Err.unableToFindSignal, rb1)
  | Nat.succ k => fun rb =>
    match GetSignalStrength rb with
    | (Except.error e, rb1) => (Except.error e, rb1)
    | (Except.ok signal, rb1) =>
      if signal < 0 then (Except.error Err.unableToFindSignal, rb1)
      else if signal ≥ 2 then (Except.ok (), rb1)
      else attemptConnectionB k rb1

/-- `func (rb *RockBlock) AttemptConnection() (err error)`: phase A with
`timeAttempts = 20`, then phase B with `signalAttempts = 10` and
`signalThreshold = 2`. -/
def AttemptConnection : M Unit := fun rb =>
  match attemptConnectionA 20 rb with
  | (Except.error e, rb1) => (Except.error e, rb1)
  | (Except.ok _, rb1) => attemptConnectionB 10 rb1

/-- One run of the `attempts` loop body of `AttemptSession`, with the
recursive drain call abstracted as `drain` (whose returned list and error
the Go code discards, keeping only the state effects).  The first `Nat`
argument is the remaining `attempts` budget.  The Go local
`success := false; if sr.MoStatus <= 4 { rb.ClearMoBuffer(); success = true }`
is inlined: `success` is exactly the condition `sr.MoStatus ≤ 4`. -/
def sessionLoop (drain : RockBlock → (List String × Option Err) × RockBlock) :
    Nat → List String → RockBlock → (List String × Option Err) × RockBlock
  | 0, incoming, rb => ((incoming, some Err.unableToEstablishSession), rb)
  | Nat.succ k, incoming, rb =>
    match SendAndReadReply "AT+SBDIX" rb with
    | (Except.error e, rb1) => ((incoming, some e), rb1)
    | (Except.ok reply, rb1) =>
      if strContains reply "+SBDIX:" then
        match ParseSbdixReply reply with
        | ParseResult.panic => ((incoming, some Err.goPanic), rb1)
        | ParseResult.err e => ((incoming, some e), rb1)
        | ParseResult.ok sr =>
          match Expect "OK" rb1 with
          | (Except.error e, rb2) => ((incoming, some e), rb2)
          | (Except.ok _, rb2) =>
            let rb3 := if sr.MoStatus ≤ 4 then (ClearMoBuffer rb2).2 else rb2
            if sr.MtStatus = 1 ∧ sr.MtLength > 0 then
              match ProcessMtMessage sr.MtQueued rb3 with
              | (Except.error e, rb4) => ((incoming, some e), rb4)
              | (Except.ok message, rb4) =>
                let incoming2 :=
                  if message ≠ "" then incoming ++ [message] else incoming
                let rb5 := if sr.MtQueued > 0 then (drain rb4).2 else rb4
                if sr.MoStatus ≤ 4 then ((incoming2, none), rb5)
                else sessionLoop drain k incoming2 rb5
            else
              let rb5 := if sr.MtQueued > 0 then (drain rb3).2 else rb3
              if sr.MoStatus ≤ 4 then ((incoming, none), rb5)
              else sessionLoop drain k incoming rb5
      else sessionLoop drain k incoming rb1

/-- `func (rb *RockBlock) AttemptSession() (incoming []string, err error)`
with explicit recursion fuel: each invocation runs the `attempts = 3`
loop, and the `MtQueued > 0` drain re-invokes the function at one less
fuel.  The Go original has no depth bound. -/
def attemptSessionGo : Nat → RockBlock → (List String × Option Err) × RockBlock
  | 0 => fun rb => (([], some Err.outOfFuel), rb)
  | Nat.succ f => fun rb => sessionLoop (attemptSessionGo f) 3 [] rb

/-- Top-level `AttemptSession`: fuel `input.length + 1` suffices because a
drain recursion only happens after at least one scripted input line was
consumed. -/
def AttemptSession (rb : RockBlock) : (List String × Option Err) × RockBlock :=
  attemptSessionGo (rb.input.length + 1) rb

/-! ### Generic lemmas about the command channel -/

theorem readLine_writes (rb : RockBlock) : (ReadLine rb).2.writes = rb.writes := by
  unfold ReadLine
  split <;> simp

theorem expect_writes (s : String) (rb : RockBlock) :
    (Expect s rb).2.writes = rb.writes := by
  unfold Expect
  cases h : ReadLine rb with
  | mk fst rb1 =>
    have hw : rb1.writes = rb.writes := by
      have h2 := readLine_writes rb
      rw [h] at h2
      exact h2
    cases fst with
    | error e => simpa using hw
    | ok r =>
      by_cases hr : r = s <;> simp [hr, hw]

theorem sendAndReadReply_writes (c : String) (rb : RockBlock) :
    (SendAndReadReply c rb).2.writes = rb.writes ++ [c ++ "\r"] := by
  unfold SendAndReadReply Send
  simp only
  cases h : Expect c { rb with writes := rb.writes ++ [c ++ "\r"] } with
  | mk fst rb2 =>
    have hw : rb2.writes = rb.writes ++ [c ++ "\r"] := by
      have h2 := expect_writes c { rb with writes := rb.writes ++ [c ++ "\r"] }
      rw [h] at h2
      exact h2
    cases fst with
    | error e => simpa using hw
    | ok u =>
      have h3 := readLine_writes rb2
      simpa [h3] using hw

theorem getSignalStrength_writes (rb : RockBlock) :
    (GetSignalStrength rb).2.writes = rb.writes ++ ["AT+CSQ\r"] := by
  unfold GetSignalStrength
  cases h : SendAndReadReply "AT+CSQ" rb with
  | mk fst rb1 =>
    have hw : rb1.writes = rb.writes ++ ["AT+CSQ\r"] := by
      have h2 := sendAndReadReply_writes "AT+CSQ" rb
      rw [h] at h2
      exact h2
    cases fst with
    | error e => simpa using hw
    | ok reply =>
      by_cases hshape : strContains reply "+CSQ" = false ∨ reply.length ≠ 6
      · simp [hshape, hw]
      · simp only [if_neg hshape]
        cases h3 : Expect "OK" rb1 with
        | mk fst2 rb2 =>
          have hw2 : rb2.writes = rb.writes ++ ["AT+CSQ\r"] := by
            have h4 := expect_writes "OK" rb1
            rw [h3] at h4
            rw [h4, hw]
          cases fst2 with
          | error e => simpa using hw2
          | ok u =>
            cases h5 : goParseInt 10 (strCharAt reply 5) <;> simp [hw2]

theorem countW_append (s : String) (a b : List String) :
    countW s (a ++ b) = countW s a + countW s b := by
  induction a with
  | nil => simp [countW]
  | cons x xs ih => simp [countW, ih]; omega

/-- The signal phase makes at most `fuel + 1` probes: each probe is one
`AT+CSQ` write, and the Go loop performs one final probe after the
attempt budget reaches zero. -/
theorem attemptConnectionB_count_le (fuel : Nat) (rb : RockBlock) :
    countW "AT+CSQ\r" ((attemptConnectionB fuel rb).2.writes) ≤
      countW "AT+CSQ\r" rb.writes + (fuel + 1) := by
  induction fuel generalizing rb with
  | zero =>
    unfold attemptConnectionB
    cases h : GetSignalStrength rb with
    | mk fst rb1 =>
      have hw : rb1.writes = rb.writes ++ ["AT+CSQ\r"] := by
        have h2 := getSignalStrength_writes rb
        rw [h] at h2
        exact h2
      cases fst <;> simp [hw, countW_append, countW]
  | succ k ih =>
    unfold attemptConnectionB
    cases h : GetSignalStrength rb with
    | mk fst rb1 =>
      have hw : rb1.writes = rb.writes ++ ["AT+CSQ\r"] := by
        have h2 := getSignalStrength_writes rb
        rw [h] at h2
        exact h2
      have hc : countW "AT+CSQ\r" rb1.writes = countW "AT+CSQ\r" rb.writes + 1 := by
        simp [hw, countW_append, countW]
      cases fst with
      | error e => simp [hc]
      | ok signal =>
        by_cases hneg : signal < 0
        · simp [hneg, hc]
        · by_cases hth : signal ≥ 2
          · simp [hneg, hth, hc]
          · have h6 := ih rb1
            simp only [if_neg hneg, if_neg hth]
            omega

/-! ### Claim theorems -/

/-- C1: evaluating `QueueMessage` at the payload `"zz"` (two bytes, byte
sum 244).  The run succeeds against a cooperative script, but the bytes
put on the wire after the payload are `[0]` and `[195, 180]` — the UTF-8
encoding of the code point 244 — three bytes in total, not the two raw
bytes `0` and `244` that the claim asserts (`244 = (sum P mod 65536) & 0xFF`). -/
theorem QueueMessage_checksum_encoding_bug :
    (QueueMessage "zz" ⟨["AT+SBDWB=2", "READY", "0", "OK"], []⟩).1 = Except.ok () ∧
    ((QueueMessage "zz" ⟨["AT+SBDWB=2", "READY", "0", "OK"], []⟩).2.writes.drop 2).map utf8Bytes
      = [[0], [195, 180]] ∧
    (runeSum "zz" % 65536) &&& 255 = 244 := by
  refine ⟨rfl, rfl, by decide⟩

/-- C2: evaluating `ParseSbdixReply` at the failing inputs.  A reply whose
remainder has only three (all-numeric) fields makes the Go code panic with
an index-out-of-range (`integers[3]`) instead of returning a ParseError; a
reply with seven numeric fields is silently truncated to the first six; a
non-numeric field does produce an ordinary error.  -/
theorem ParseSbdixReply_short_reply_panics :
    ParseSbdixReply "+SBDIX:0, 0, 0" = ParseResult.panic ∧
    ParseSbdixReply "+SBDIX:0, 1, 2, 3, 4, 5, 6" = ParseResult.ok ⟨0, 1, 2, 3, 4, 5⟩ ∧
    ParseSbdixReply "+SBDIX:0, 1, x, 3, 4, 5" = ParseResult.err (Err.parseIntErr "x") := by
  refine ⟨by decide, by decide, by decide⟩

/-- C3: a payload longer than 340 bytes is rejected by `QueueMessage`
with the validation error before any transport I/O: the returned state is
exactly the input state (nothing written, nothing read). -/
theorem QueueMessage_oversize_no_io (message : String) (rb : RockBlock)
    (h : goLen message > 340) :
    QueueMessage message rb = (Except.error (Err.messageTooLong (goLen message)), rb) := by
  unfold QueueMessage
  rw [if_pos h]

/-- C3 witness: a 341-byte payload is rejected with the state untouched. -/
theorem QueueMessage_oversize_no_io_witness :
    QueueMessage (String.mk (List.replicate 341 'a')) ⟨["READY"], []⟩ =
      (Except.error (Err.messageTooLong (goLen (String.mk (List.replicate 341 'a')))),
        ⟨["READY"], []⟩) :=
  QueueMessage_oversize_no_io (String.mk (List.replicate 341 'a')) ⟨["READY"], []⟩
    (by decide)

/-- C4 counterexample: against a transport that passes the time phase at
once and then always reports signal strength 0, the signal phase issues
`AT+CSQ` 11 times — not at most 10 — before failing, because the Go loop
probes once more after the attempt budget is exhausted. -/
theorem AttemptConnection_eleven_signal_probes :
    countW "AT+CSQ\r"
      (AttemptConnection
        ⟨["AT-MSSTM", "-MSSTM: 00000000", "OK"] ++
          (List.replicate 11 ["AT+CSQ", "+CSQ:0", "OK"]).flatten, []⟩).2.writes = 11 ∧
    (AttemptConnection
        ⟨["AT-MSSTM", "-MSSTM: 00000000", "OK"] ++
          (List.replicate 11 ["AT+CSQ", "+CSQ:0", "OK"]).flatten, []⟩).1 =
      Except.error Err.unableToFindSignal := by
  refine ⟨by decide, by decide⟩

/-- C4 amended: (a) against a transport on which every time probe fails
(here: an exhausted script, so every `AT-MSSTM` exchange mismatches), the
time phase makes exactly 20 probes and returns the retry-exhausted error;
(b) the signal phase makes at most `fuel + 1` probes — 11 for the actual
budget of 10 — with the bound attained (c) on an all-zero-signal script,
which fails even though an 11th value is read; and (d) a first probe of
strength 5 (≥ threshold 2) succeeds immediately. -/
theorem AttemptConnection_retry_counts :
    AttemptConnection ⟨[], []⟩ =
      (Except.error Err.unableToEstablishConnection,
        ⟨[], List.replicate 20 "AT-MSSTM\r"⟩) ∧
    (∀ fuel rb,
      countW "AT+CSQ\r" ((attemptConnectionB fuel rb).2.writes) ≤
        countW "AT+CSQ\r" rb.writes + (fuel + 1)) ∧
    (AttemptConnection
        ⟨["AT-MSSTM", "-MSSTM: 00000000", "OK"] ++
          (List.replicate 11 ["AT+CSQ", "+CSQ:0", "OK"]).flatten, []⟩).1 =
      Except.error Err.unableToFindSignal ∧
    (AttemptConnection
        ⟨["AT-MSSTM", "-MSSTM: 00000000", "OK", "AT+CSQ", "+CSQ:5", "OK"], []⟩).1 =
      Except.ok () := by
  refine ⟨by decide, attemptConnectionB_count_le, by decide, by decide⟩

/-- C6: on a script whose `AT-MSSTM` exchange yields a reply carrying the
`-MSSTM:` marker whose characters from offset 8 on parse as the hex tick
count `t` (followed by `OK`), `GetNetworkTime` returns exactly
`(IridiumEpoch + t*90) / 1000` in truncating integer arithmetic, with
`IridiumEpoch = 1399818235000`. -/
theorem GetNetworkTime_formula (reply : String) (rest w : List String) (t : Int)
    (hTrim : goTrim reply = reply) (hNe : ¬ reply = "")
    (hMark : strContains reply "-MSSTM:" = true)
    (hLen : 8 ≤ reply.length)
    (hParse : goParseInt 16 (strDrop 8 reply) = some t) :
    (GetNetworkTime ⟨"AT-MSSTM" :: reply :: "OK" :: rest, w⟩).1 =
      Except.ok (Int.tdiv (IridiumEpoch + t * 90) 1000) := by
  have e2 : nextLine (reply :: "OK" :: rest) = some (reply, "OK" :: rest) := by
    unfold nextLine
    rw [hTrim, if_neg hNe]
  have e3 : ReadLine ⟨reply :: "OK" :: rest, w ++ ["AT-MSSTM\r"]⟩ =
      (Except.ok reply, ⟨"OK" :: rest, w ++ ["AT-MSSTM\r"]⟩) := by
    unfold ReadLine
    rw [e2]
  have eSR : SendAndReadReply "AT-MSSTM" ⟨"AT-MSSTM" :: reply :: "OK" :: rest, w⟩ =
      (Except.ok reply, ⟨"OK" :: rest, w ++ ["AT-MSSTM\r"]⟩) := by
    have eS : SendAndReadReply "AT-MSSTM" ⟨"AT-MSSTM" :: reply :: "OK" :: rest, w⟩ =
        ReadLine ⟨reply :: "OK" :: rest, w ++ ["AT-MSSTM\r"]⟩ := rfl
    rw [eS, e3]
  have eOK : Expect "OK" (⟨"OK" :: rest, w ++ ["AT-MSSTM\r"]⟩ : RockBlock) =
      (Except.ok (), ⟨rest, w ++ ["AT-MSSTM\r"]⟩) := rfl
  unfold GetNetworkTime
  simp only [eSR, eOK, hMark]
  rw [if_neg (by simp)]
  rw [if_neg (Nat.not_lt.mpr hLen)]
  simp only [hParse]

/-- C6 witness: a tick value of 0 (reply `-MSSTM: 00000000`) yields
exactly `1399818235000 / 1000 = 1399818235` seconds. -/
theorem GetNetworkTime_formula_witness :
    (GetNetworkTime ⟨["AT-MSSTM", "-MSSTM: 00000000", "OK"], []⟩).1 =
      Except.ok 1399818235 := by
  have h := GetNetworkTime_formula "-MSSTM: 00000000" [] [] 0 rfl (by decide)
    (by decide) (by decide) rfl
  exact h.trans rfl

/-- Restating the Go slice `message[2 : len(message)-2]` as: drop the
first two characters, then drop the last two. -/
theorem strDrop_mid (s : String) :
    strDropRight 2 (strDrop 2 s) =
      String.mk ((s.data.drop 2).take (s.data.length - 4)) := by
  unfold strDropRight strDrop
  simp [List.length_drop, Nat.sub_sub]

/-- C8: when the raw `AT+SBDRB` reply line (after echo stripping and
trimming) has more than 4 characters, `ProcessMtMessage` returns it with
the first 2 and last 2 characters removed — performing no validation of
the length header or checksum trailer — and otherwise returns the empty
message; the trailing `OK` is still expected.  The hypotheses say the
script yields one raw line and then `OK`. -/
theorem ProcessMtMessage_frame (mtMsn : Int) (rb : RockBlock)
    (line : String) (rest rest2 : List String)
    (h1 : nextLine rb.input = some (line, rest))
    (h2 : nextLine rest = some ("OK", rest2)) :
    (ProcessMtMessage mtMsn rb).1 =
      Except.ok
        (if (goTrim (removeFirst "AT+SBDRB\r" line)).length > 4 then
          strDropRight 2 (strDrop 2 (goTrim (removeFirst "AT+SBDRB\r" line)))
        else "") := by
  have e1 : ReadLine { rb with writes := rb.writes ++ ["AT+SBDRB\r"] } =
      (Except.ok line, ⟨rest, rb.writes ++ ["AT+SBDRB\r"]⟩) := by
    unfold ReadLine
    simp only [h1]
  have e2 : Expect "OK" (⟨rest, rb.writes ++ ["AT+SBDRB\r"]⟩ : RockBlock) =
      (Except.ok (), ⟨rest2, rb.writes ++ ["AT+SBDRB\r"]⟩) := by
    unfold Expect ReadLine
    simp only [h2]
    simp
  unfold ProcessMtMessage Send
  simp only [show ("AT+SBDRB" ++ "\r" : String) = "AT+SBDRB\r" from rfl, e1, e2,
    strDrop_mid]

/-- C8 witness: the 9-character frame `LLhelloCC` yields the 5-character
payload `hello`; a 4-character frame yields the empty message. -/
theorem ProcessMtMessage_frame_witness :
    (ProcessMtMessage 7 ⟨["LLhelloCC", "OK"], []⟩).1 = Except.ok "hello" ∧
    (ProcessMtMessage 7 ⟨["LLCC", "OK"], []⟩).1 = Except.ok "" := by
  constructor
  · have h := ProcessMtMessage_frame 7 ⟨["LLhelloCC", "OK"], []⟩ "LLhelloCC" ["OK"] []
      rfl rfl
    exact h.trans (by decide)
  · have h := ProcessMtMessage_frame 7 ⟨["LLCC", "OK"], []⟩ "LLCC" ["OK"] []
      rfl rfl
    exact h.trans (by decide)

/-- C5: on the scripted transport answering the first session check with
`+SBDIX:0, 5, 1, 7, 10, 1` (then `OK`), a clearable mailbox, and a
retrievable frame `LLhelloCC`, `AttemptSession` issues exactly one
`AT+SBDRB` retrieval, succeeds with the single inbound message `hello`,
and issues exactly one further `AT+SBDIX` exchange (two in total) as the
drain triggered by `MtQueued = 1`.  In general (second conjunct), a
retrieval error aborts the whole session with that error. -/
theorem AttemptSession_single_retrieval_and_drain :
    (AttemptSession
        ⟨["AT+SBDIX", "+SBDIX:0, 5, 1, 7, 10, 1", "OK", "AT+SBDD0", "0", "OK",
          "LLhelloCC", "OK", "AT+SBDIX", "+SBDIX:0, 6, 0, 0, 0, 0", "OK",
          "AT+SBDD0", "0", "OK"], []⟩ =
      ((["hello"], none),
        ⟨[], ["AT+SBDIX\r", "AT+SBDD0\r", "AT+SBDRB\r", "AT+SBDIX\r", "AT+SBDD0\r"]⟩) ∧
      countW "AT+SBDRB\r"
        ["AT+SBDIX\r", "AT+SBDD0\r", "AT+SBDRB\r", "AT+SBDIX\r", "AT+SBDD0\r"] = 1 ∧
      countW "AT+SBDIX\r"
        ["AT+SBDIX\r", "AT+SBDD0\r", "AT+SBDRB\r", "AT+SBDIX\r", "AT+SBDD0\r"] = 2) ∧
    (∀ (drain : RockBlock → (List String × Option Err) × RockBlock)
        (k : Nat) (incoming : List String) (rb rb1 rb2 rb3 rb4 : RockBlock)
        (reply : String) (sr : SbdixReply) (e : Err),
      SendAndReadReply "AT+SBDIX" rb = (Except.ok reply, rb1) →
      strContains reply "+SBDIX:" = true →
      ParseSbdixReply reply = ParseResult.ok sr →
      Expect "OK" rb1 = (Except.ok (), rb2) →
      rb3 = (if sr.MoStatus ≤ 4 then (ClearMoBuffer rb2).2 else rb2) →
      sr.MtStatus = 1 → sr.MtLength > 0 →
      ProcessMtMessage sr.MtQueued rb3 = (Except.error e, rb4) →
      sessionLoop drain (k + 1) incoming rb = ((incoming, some e), rb4)) := by
  refine ⟨⟨by decide, by decide, by decide⟩, ?_⟩
  intro drain k incoming rb rb1 rb2 rb3 rb4 reply sr e h1 hc hp he hrb3 hmt1 hmt2 hpm
  have hcond : sr.MtStatus = 1 ∧ sr.MtLength > 0 := ⟨hmt1, hmt2⟩
  simp only [sessionLoop, h1, if_pos hc, hp, he, if_pos hcond]
  rw [← hrb3, hpm]

/-- C5 witness: a run whose retrieval fails (the line after the `LLhelloCC`
frame is `BAD` instead of `OK`) aborts the session attempt with the
wrapped expect error, through the general conjunct of the theorem. -/
theorem AttemptSession_single_retrieval_and_drain_witness :
    sessionLoop (attemptSessionGo 0) 3 []
        ⟨["AT+SBDIX", "+SBDIX:0, 5, 1, 7, 10, 0", "OK", "AT+SBDD0", "0", "OK",
          "LLhelloCC", "BAD"], []⟩ =
      (([], some (Err.expectedOk (Err.unexpectedReply "BAD" "OK"))),
        ⟨[], ["AT+SBDIX\r", "AT+SBDD0\r", "AT+SBDRB\r"]⟩) :=
  AttemptSession_single_retrieval_and_drain.2 (attemptSessionGo 0) 2 []
    ⟨["AT+SBDIX", "+SBDIX:0, 5, 1, 7, 10, 0", "OK", "AT+SBDD0", "0", "OK",
      "LLhelloCC", "BAD"], []⟩
    ⟨["OK", "AT+SBDD0", "0", "OK", "LLhelloCC", "BAD"], ["AT+SBDIX\r"]⟩
    ⟨["AT+SBDD0", "0", "OK", "LLhelloCC", "BAD"], ["AT+SBDIX\r"]⟩
    ⟨["LLhelloCC", "BAD"], ["AT+SBDIX\r", "AT+SBDD0\r"]⟩
    ⟨[], ["AT+SBDIX\r", "AT+SBDD0\r", "AT+SBDRB\r"]⟩
    "+SBDIX:0, 5, 1, 7, 10, 0" ⟨0, 5, 1, 7, 10, 0⟩
    (Err.expectedOk (Err.unexpectedReply "BAD" "OK"))
    (by decide) (by decide) (by decide) (by decide) (by decide) (by decide)
    (by decide) (by decide)

/-- C7: whenever a parsed session reply has `MoStatus ≤ 4`, the mailbox
clear runs best-effort and its outcome is irrelevant: with no hypothesis
whatsoever about `ClearMoBuffer`'s result (and any MT retrieval, if
triggered, succeeding), the attempt is marked successful and the session
returns with no error. -/
theorem sessionLoop_clear_best_effort
    (drain : RockBlock → (List String × Option Err) × RockBlock)
    (k : Nat) (incoming : List String) (rb rb1 rb2 : RockBlock)
    (reply : String) (sr : SbdixReply)
    (h1 : SendAndReadReply "AT+SBDIX" rb = (Except.ok reply, rb1))
    (hc : strContains reply "+SBDIX:" = true)
    (hp : ParseSbdixReply reply = ParseResult.ok sr)
    (he : Expect "OK" rb1 = (Except.ok (), rb2))
    (hmo : sr.MoStatus ≤ 4)
    (hmt : sr.MtStatus = 1 ∧ sr.MtLength > 0 →
      ∃ m rb4, ProcessMtMessage sr.MtQueued ((ClearMoBuffer rb2).2) = (Except.ok m, rb4)) :
    (sessionLoop drain (k + 1) incoming rb).1.2 = none := by
  simp only [sessionLoop, h1, if_pos hc, hp, he, if_pos hmo]
  by_cases hcond : sr.MtStatus = 1 ∧ sr.MtLength > 0
  · obtain ⟨m, rb4, hq⟩ := hmt hcond
    simp only [if_pos hcond, hq, if_pos hmo]
  · simp only [if_neg hcond, if_pos hmo]

/-- C7 witness: a script on which the mailbox clear fails outright (the
`AT+SBDD0` echo comes back as `ERROR`) still ends the session attempt
with no error. -/
theorem sessionLoop_clear_best_effort_witness :
    (sessionLoop (attemptSessionGo 0) 3 []
        ⟨["AT+SBDIX", "+SBDIX:0, 5, 0, 0, 0, 0", "OK", "ERROR"], []⟩).1.2 = none :=
  sessionLoop_clear_best_effort (attemptSessionGo 0) 2 []
    ⟨["AT+SBDIX", "+SBDIX:0, 5, 0, 0, 0, 0", "OK", "ERROR"], []⟩
    ⟨["OK", "ERROR"], ["AT+SBDIX\r"]⟩
    ⟨["ERROR"], ["AT+SBDIX\r"]⟩
    "+SBDIX:0, 5, 0, 0, 0, 0" ⟨0, 5, 0, 0, 0, 0⟩
    (by decide) (by decide) (by decide) (by decide) (by decide)
    (fun h => absurd h.1 (by decide))

/-- C9: the recursive drain call's returned values are discarded.  First
conjunct: two drain functions with the same state effects but arbitrarily
different returned lists and errors give identical `sessionLoop` results,
so neither the drain's inbound messages nor its error can influence the
outer call's list or verdict.  Second conjunct: a run whose drain
retrieves a message (`LLworldCC`, one `AT+SBDRB` write) still returns the
empty inbound list with no error.  Third conjunct: a run whose drain
fails immediately (its `AT+SBDIX` exchange mismatches on an exhausted
script) still returns success. -/
theorem AttemptSession_drain_results_discarded :
    (∀ (d1 d2 : RockBlock → (List String × Option Err) × RockBlock),
      (∀ s, (d1 s).2 = (d2 s).2) →
      ∀ (k : Nat) (incoming : List String) (rb : RockBlock),
        sessionLoop d1 k incoming rb = sessionLoop d2 k incoming rb) ∧
    ((AttemptSession
        ⟨["AT+SBDIX", "+SBDIX:0, 5, 0, 0, 0, 1", "OK", "AT+SBDD0", "0", "OK",
          "AT+SBDIX", "+SBDIX:0, 6, 1, 7, 5, 0", "OK", "AT+SBDD0", "0", "OK",
          "LLworldCC", "OK"], []⟩).1 = ([], none) ∧
      countW "AT+SBDRB\r"
        (AttemptSession
          ⟨["AT+SBDIX", "+SBDIX:0, 5, 0, 0, 0, 1", "OK", "AT+SBDD0", "0", "OK",
            "AT+SBDIX", "+SBDIX:0, 6, 1, 7, 5, 0", "OK", "AT+SBDD0", "0", "OK",
            "LLworldCC", "OK"], []⟩).2.writes = 1) ∧
    ((AttemptSession
        ⟨["AT+SBDIX", "+SBDIX:0, 5, 0, 0, 0, 1", "OK", "AT+SBDD0", "0", "OK"],
          []⟩).1 = ([], none) ∧
      countW "AT+SBDIX\r"
        (AttemptSession
          ⟨["AT+SBDIX", "+SBDIX:0, 5, 0, 0, 0, 1", "OK", "AT+SBDD0", "0", "OK"],
            []⟩).2.writes = 2) := by
  refine ⟨?_, ⟨by decide, by decide⟩, ⟨by decide, by decide⟩⟩
  intro d1 d2 hst k
  induction k with
  | zero => intro incoming rb; rfl
  | succ k ih =>
    intro incoming rb
    simp only [sessionLoop]
    cases h1 : SendAndReadReply "AT+SBDIX" rb with
    | mk fst rb1 =>
    cases fst with
    | error e => rfl
    | ok reply =>
      by_cases hc : strContains reply "+SBDIX:" = true
      · simp only [if_pos hc]
        cases hp : ParseSbdixReply reply with
        | panic => rfl
        | err e => rfl
        | ok sr =>
          cases he : Expect "OK" rb1 with
          | mk fst2 rb2 =>
          cases fst2 with
          | error e => rfl
          | ok u =>
            by_cases hcond : sr.MtStatus = 1 ∧ sr.MtLength > 0
            · simp only [if_pos hcond]
              cases hq : ProcessMtMessage sr.MtQueued
                  (if sr.MoStatus ≤ 4 then (ClearMoBuffer rb2).2 else rb2) with
              | mk fst3 rb4 =>
              cases fst3 with
              | error e => rfl
              | ok m =>
                by_cases hqd : sr.MtQueued > 0
                · simp only [if_pos hqd, hst rb4]
                  by_cases hmo : sr.MoStatus ≤ 4
                  · simp only [if_pos hmo]
                  · simp only [if_neg hmo]
                    exact ih _ _
                · simp only [if_neg hqd]
                  by_cases hmo : sr.MoStatus ≤ 4
                  · simp only [if_pos hmo]
                  · simp only [if_neg hmo]
                    exact ih _ _
            · simp only [if_neg hcond]
              by_cases hqd : sr.MtQueued > 0
              · simp only [if_pos hqd,
                  hst (if sr.MoStatus ≤ 4 then (ClearMoBuffer rb2).2 else rb2)]
                by_cases hmo : sr.MoStatus ≤ 4
                · simp only [if_pos hmo]
                · simp only [if_neg hmo]
                  exact ih _ _
              · simp only [if_neg hqd]
                by_cases hmo : sr.MoStatus ≤ 4
                · simp only [if_pos hmo]
                · simp only [if_neg hmo]
                  exact ih _ _
      · simp only [if_neg hc]
        exact ih _ _

/-- C9 witness: instantiating the discard property with the real drain
and a phantom drain that claims a bogus message and an error but has the
same state effects — the session results coincide. -/
theorem AttemptSession_drain_results_discarded_witness :
    sessionLoop (attemptSessionGo 1) 1 []
        ⟨["AT+SBDIX", "+SBDIX:0, 5, 0, 0, 0, 1", "OK", "AT+SBDD0", "0", "OK"], []⟩ =
      sessionLoop
        (fun s => ((["phantom"], some Err.outOfFuel), (attemptSessionGo 1 s).2)) 1 []
        ⟨["AT+SBDIX", "+SBDIX:0, 5, 0, 0, 0, 1", "OK", "AT+SBDD0", "0", "OK"], []⟩ :=
  AttemptSession_drain_results_discarded.1 (attemptSessionGo 1)
    (fun s => ((["phantom"], some Err.outOfFuel), (attemptSessionGo 1 s).2))
    (fun _ => rfl) 1 []
    ⟨["AT+SBDIX", "+SBDIX:0, 5, 0, 0, 0, 1", "OK", "AT+SBDD0", "0", "OK"], []⟩

/-- C10: `ProcessMtMessage` never reads its `mtMsn` parameter: as state
transformers, the calls at any two arguments are definitionally the same
function, so transport writes, reads, and results coincide. -/
theorem ProcessMtMessage_ignores_mtMsn :
    ∀ a b : Int, ProcessMtMessage a = ProcessMtMessage b :=
  fun _ _ => rfl

end Goridium
